import Mathlib

/-!
Verification development for the PPCL55x tunable-laser driver
(`pyrolab/drivers/lasers/ppcl550.py`).

The driver is embedded shallowly: the serial link is abstracted as an
oracle `Nat → RecvEvent` giving, for the n-th transaction of a run, what
the `_recieve` poll observes (a timeout, a read failure, or four bytes).
Instance state (`self.*`) is threaded explicitly through a `LaserState`
record.  Python exceptions are modelled by the `raised` result
constructor; the unbounded busy-wait `while self.queue[0] != rowticket`
of a single-threaded run whose queue head can never change is modelled
by the `hang` result constructor.
-/

namespace PPCL550

/-- The constant `C_SPEED = 299792458` from the source. -/
def C_SPEED : ℚ := 299792458

def ITLA_NOERROR : Nat := 0x00
def ITLA_EXERROR : Nat := 0x01
def ITLA_AEERROR : Nat := 0x02
def ITLA_CPERROR : Nat := 0x03
def ITLA_NRERROR : Nat := 0x04
def ITLA_CSERROR : Nat := 0x05

def REG_Nop : Nat := 0x00
def REG_Channel : Nat := 0x30
def REG_Power : Nat := 0x31
def REG_Resena : Nat := 0x32
def REG_Fcf1 : Nat := 0x35
def REG_Fcf2 : Nat := 0x36
def REG_Mode : Nat := 0x90

/-- Python `int()` applied to an exact rational: truncation toward zero.
On the nonnegative values this is the floor. -/
def pyInt (x : ℚ) : ℤ := if 0 ≤ x then ⌊x⌋ else ⌈x⌉

/-- Source method `_checksum(self, msg)`:
`bip8 = (msg[0] & 0x0f) ^ msg[1] ^ msg[2] ^ msg[3]`,
`bip4 = ((bip8 & 0xf0) >> 4) ^ (bip8 & 0x0f)`. -/
def _checksum (m0 m1 m2 m3 : Nat) : Nat :=
  let bip8 := (m0 &&& 0x0f) ^^^ m1 ^^^ m2 ^^^ m3
  ((bip8 &&& 0xf0) >>> 4) ^^^ (bip8 &&& 0x0f)

/-- Source method `_wl_freq(self, wl)`: `return C_SPEED/wl`. -/
def _wl_freq (wl : ℚ) : ℚ := C_SPEED / wl

/-- The 4-byte frame `_communicate` builds and `_send` transmits:
`byte2 = int(data/256)`, `byte3 = int(data - byte2*256)`,
`msg = [rw, register, byte2, byte3]`,
`msg[0] = msg[0] | int(self._checksum(msg))*16`. -/
def mkmsg (rw register data : Nat) : List Nat :=
  let byte2 := data / 256
  let byte3 := data - byte2 * 256
  [rw ||| _checksum rw register byte2 byte3 * 16, register, byte2, byte3]

/-- The Python exceptions that can escape the driver's methods. -/
inductive PyErr where
  /-- Exception `PyroError("ChecksumError")` raised by `_recieve`. -/
  | checksumError
  /-- Exception `PyroError(f"SerialCommunicationFailure ...")` raised by `_recieve`. -/
  | serialCommunicationFailure
  /-- Exception `AttributeError`: `_communicate` calls `self.AEA(datamsg)` on a
  response with status bits `0x02`, but class `PPCL55x` defines no
  method `AEA`, so Python raises an (untyped) `AttributeError`. -/
  | attributeErrorAEA
deriving DecidableEq, Repr

/-- Result of running one driver method. -/
inductive PyResult where
  /-- The method returned a Python `int`. -/
  | intVal (v : Nat)
  /-- The method returned a Python `str`. -/
  | strVal (s : String)
  /-- A Python exception propagated out of the method. -/
  | raised (e : PyErr)
  /-- The method never returns: it spins forever in
  `while self.queue[0] != rowticket` (single-threaded run whose queue
  head is a stale ticket that nothing will ever remove). -/
  | hang
deriving DecidableEq, Repr

/-- What one `_recieve` poll observes on the serial link. -/
inductive RecvEvent where
  /-- Fewer than 4 bytes arrived before the 0.5 s deadline. -/
  | timeout
  /-- Call `self.lasercom.read` raised inside the `try`. -/
  | readFailure
  /-- Four bytes arrived. -/
  | bytes (b0 b1 b2 b3 : Nat)
deriving DecidableEq, Repr

/-- The `self.*` instance state of `PPCL55x`, plus the trace `sent` of
frames written to the serial port (in order). -/
structure LaserState where
  minWavelength : ℚ
  maxWavelength : ℚ
  minPower : ℚ
  maxPower : ℚ
  _error : Nat
  latestregister : Nat
  queue : List Nat
  maxrowticket : Nat
  powerState : Nat
  sent : List (List Nat)
deriving DecidableEq, Repr

/-- The state right after `__init__`'s field assignments
(`minWL=1515, maxWL=1570, minPow=6, maxPow=13.5`; the default maximum
power 13.5 dBm is written `27/2`). -/
def initState : LaserState :=
  { minWavelength := 1515, maxWavelength := 1570,
    minPower := 6, maxPower := 27/2,
    _error := ITLA_NOERROR, latestregister := 0,
    queue := [], maxrowticket := 0, powerState := 0, sent := [] }

/-- Source method `_recieve(self)`.  `ev` is what the poll observes.
* timeout: sets `self._error = ITLA_NRERROR` and returns
  `(0xFF,0xFF,0xFF,0xFF)` — no exception;
* read failure: raises `PyroError` (the assignments after the `raise`
  are dead code);
* four bytes: if `self._checksum(msg) == msg[0] >> 4` then sets
  `self._error = msg[0] & 0x03` and returns the message, otherwise
  raises `PyroError("ChecksumError")` (again the statements after the
  `raise` are dead code). -/
def _recieve (ev : RecvEvent) (st : LaserState) :
    Except PyErr ((Nat × Nat × Nat × Nat) × LaserState) :=
  match ev with
  | .timeout => .ok ((0xFF, 0xFF, 0xFF, 0xFF), { st with _error := ITLA_NRERROR })
  | .readFailure => .error .serialCommunicationFailure
  | .bytes b0 b1 b2 b3 =>
      if _checksum b0 b1 b2 b3 == b0 >>> 4 then
        .ok ((b0, b1, b2, b3), { st with _error := b0 &&& 0x03 })
      else
        .error .checksumError

/-- Source method `_communicate(self, register, data, rw)`, for a
single-threaded run.  The `threading.Lock()` is a fresh local object on
every call, so acquiring and releasing it never blocks and has no
observable effect; it is therefore not modelled.  The ticket
`rowticket = maxrowticket + 1` is appended to `self.queue`; the spin
`while self.queue[0] != rowticket` terminates iff the ticket is already
at the head (in a single-threaded run nothing else can change the
queue, so otherwise the method hangs forever).  The response is indexed
by the number of frames sent before this call.  Note that when
`_recieve` raises, the exception propagates out of `_communicate`
*before* `self.queue.pop(0)` runs, and likewise the call
`self.AEA(datamsg)` (status bits `0x02`, `rw == 0` branch) raises
`AttributeError` before the pop. -/
def _communicate (link : Nat → RecvEvent) (register data rw : Nat)
    (st : LaserState) : PyResult × LaserState :=
  let rowticket := st.maxrowticket + 1
  let st1 := { st with maxrowticket := st.maxrowticket + 1,
                       queue := st.queue ++ [rowticket] }
  if st1.queue.head? == some rowticket then
    let idx := st.sent.length
    if rw == 0 then
      let st2 := { st1 with latestregister := register,
                            sent := st1.sent ++ [mkmsg rw register data] }
      match _recieve (link idx) st2 with
      | .error e => (.raised e, st2)
      | .ok ((r0, _, _, _), st3) =>
          if (r0 &&& 0x03) == 0x02 then
            (.raised .attributeErrorAEA, st3)
          else
            (.intVal (r0 &&& 0x03), { st3 with queue := st3.queue.tail })
    else
      let st2 := { st1 with sent := st1.sent ++ [mkmsg rw register data] }
      match _recieve (link idx) st2 with
      | .error e => (.raised e, st2)
      | .ok ((r0, _, _, _), st3) =>
          (.intVal (r0 &&& 0x03), { st3 with queue := st3.queue.tail })
  else
    (.hang, st1)

/-- Sequencing of driver statements: continue with the returned `int`,
propagate exceptions and hangs (a Python exception aborts the rest of
the caller's body; a spin that never ends absorbs it). -/
def pbind (r : PyResult × LaserState)
    (f : Nat → LaserState → PyResult × LaserState) : PyResult × LaserState :=
  match r with
  | (.intVal v, st) => f v st
  | other => other

@[simp] theorem pbind_intVal (v : Nat) (st : LaserState) (f) :
    pbind (.intVal v, st) f = f v st := rfl

@[simp] theorem pbind_raised (e : PyErr) (st : LaserState) (f) :
    pbind (.raised e, st) f = (.raised e, st) := rfl

@[simp] theorem pbind_hang (st : LaserState) (f) :
    pbind (.hang, st) f = (.hang, st) := rfl

@[simp] theorem pbind_strVal (s : String) (st : LaserState) (f) :
    pbind (.strVal s, st) f = (.strVal s, st) := rfl

/-- Source method `setPower(self, power)`: `sendPower = int(power*100)`, then one
write transaction on `REG_Power`. -/
def setPower (link : Nat → RecvEvent) (power : ℚ) (st : LaserState) :
    PyResult × LaserState :=
  _communicate link REG_Power (pyInt (power * 100)).toNat 1 st

/-- Source method `setChannel(self, channel=1)`. -/
def setChannel (link : Nat → RecvEvent) (channel : Nat) (st : LaserState) :
    PyResult × LaserState :=
  _communicate link REG_Channel channel 1 st

/-- Source method `setMode(self, mode)`. -/
def setMode (link : Nat → RecvEvent) (mode : Nat) (st : LaserState) :
    PyResult × LaserState :=
  _communicate link REG_Mode mode 1 st

/-- The `for x in range(10): back = self._communicate(REG_Nop,0,0)`
settle loop inside `on()`; `back` from before the loop is overwritten
by each iteration. -/
def nopLoop (link : Nat → RecvEvent) :
    Nat → Nat → LaserState → PyResult × LaserState
  | 0, back, st => (.intVal back, st)
  | n + 1, _, st =>
      pbind (_communicate link REG_Nop 0 0 st) (fun b st1 => nopLoop link n b st1)

/-- Source method `on(self)` (named `laserOn` because `on` is not
usable as a declaration name here): writes 8 to `REG_Resena`, performs
10 no-op read transactions, then sets `self.powerState = 1` and returns
the last `back`. -/
def laserOn (link : Nat → RecvEvent) (st : LaserState) :
    PyResult × LaserState :=
  pbind (_communicate link REG_Resena 8 1 st) (fun back0 st1 =>
    pbind (nopLoop link 10 back0 st1) (fun back st2 =>
      (.intVal back, { st2 with powerState := 1 })))

/-- Source method `off(self)`: writes 0 to `REG_Resena`, sets
`self.powerState = 0`, returns `back`. -/
def laserOff (link : Nat → RecvEvent) (st : LaserState) :
    PyResult × LaserState :=
  pbind (_communicate link REG_Resena 0 1 st) (fun back st1 =>
    (.intVal back, { st1 with powerState := 0 }))

/-- Source method `setWavelength(self, wavelength)`.  Out of range:
returns the Python string `"wavelength not in range"` without touching
the link.  Otherwise `freq = self._wl_freq(wavelength)`,
`freq_t = int(freq/1000)`, `freq_g = int(freq*10) - freq_t*10000`
(Python `int()` embedded as `pyInt`; the resulting Python ints are
nonnegative for positive wavelengths and are passed to `_communicate`
as the `data` argument, embedded via `Int.toNat`).  If
`self.powerState` is truthy: `off()`, write `REG_Fcf1`, on success
write `REG_Fcf2`, then `on()` unconditionally and return `back` from
the Fcf writes; otherwise the two Fcf writes without the power cycle. -/
def setWavelength (link : Nat → RecvEvent) (wavelength : ℚ)
    (st : LaserState) : PyResult × LaserState :=
  if wavelength < st.minWavelength ∨ st.maxWavelength < wavelength then
    (.strVal ("wavelength not in range"), st)
  else
    let freq := _wl_freq wavelength
    let freq_t := pyInt (freq / 1000)
    let freq_g := pyInt (freq * 10) - freq_t * 10000
    if st.powerState ≠ 0 then
      pbind (laserOff link st) (fun _ st1 =>
        pbind (_communicate link REG_Fcf1 freq_t.toNat 1 st1) (fun back st2 =>
          if back == ITLA_NOERROR then
            pbind (_communicate link REG_Fcf2 freq_g.toNat 1 st2) (fun back2 st3 =>
              pbind (laserOn link st3) (fun _ st4 => (.intVal back2, st4)))
          else
            pbind (laserOn link st2) (fun _ st3 => (.intVal back, st3))))
    else
      pbind (_communicate link REG_Fcf1 freq_t.toNat 1 st) (fun back st1 =>
        if back == ITLA_NOERROR then
          pbind (_communicate link REG_Fcf2 freq_g.toNat 1 st1) (fun back2 st2 =>
            (.intVal back2, st2))
        else
          (.intVal back, st1))

/-- A link on which every transaction's response is four bytes whose
checksum is wrong: `_checksum 0 0 0 1 = 1` but `0 >>> 4 = 0`. -/
def badChecksumLink : Nat → RecvEvent := fun _ => .bytes 0 0 0 1

/-- A link on which fewer than 4 bytes ever arrive before the deadline. -/
def timeoutLink : Nat → RecvEvent := fun _ => .timeout

/-- A well-checksummed response frame carrying status bits `v` (for
`v < 16` with `nibble4 v = v`, e.g. `v < 4`) and payload 0: byte0 is
`17*v = v ||| v <<< 4`. -/
def statusFrame (v : Nat) : RecvEvent := .bytes (17 * v) 0 0 0

/-- A link whose `n`-th response is a valid frame with status `s n`. -/
def statusLink (s : Nat → Nat) : Nat → RecvEvent := fun n => statusFrame (s n)

/-- A link whose first response is a valid no-error frame and whose
later responses are valid frames with status bits 2 (the vendor's
extended-addressing "AEA" response). -/
def aeaLink : Nat → RecvEvent := fun n => if n == 0 then statusFrame 0 else statusFrame 2

/-!
## Baud negotiation (`__init__`, lines 133–156)

The constructor opens the port at the caller-given `baudrate`, sets the
counter `baudrate2 = 4800`, and loops `while baudrate2 < 115200`: it
issues a no-op transaction at whatever baud the port is currently open
at; on a non-`ITLA_NOERROR` answer it advances `baudrate2` along
4800→9600→19200→38400→57600→115200, closes the port and reopens it at
the new `baudrate2`; on success it returns.  When the loop exhausts, it
raises `IOError`.  The link is abstracted as `ok : Nat → Bool` giving,
per baud rate, whether a no-op transaction at that baud returns
`ITLA_NOERROR`.  `connect` returns whether the constructor succeeded
together with the ordered list of bauds at which a no-op transaction
was actually attempted.
-/

/-- The `if baudrate2==4800: baudrate2=9600 elif ...` chain. -/
def nextBaud (b : Nat) : Nat :=
  if b == 4800 then 9600
  else if b == 9600 then 19200
  else if b == 19200 then 38400
  else if b == 38400 then 57600
  else if b == 57600 then 115200
  else b

/-- The `while baudrate2 < 115200` loop.  `fuel` only bounds the
recursion; `baudrate2` strictly ascends the finite chain, so `fuel = 6`
is never exhausted. -/
def connectLoop (ok : Nat → Bool) :
    Nat → Nat → Nat → List Nat → Bool × List Nat
  | 0, _, _, attempts => (false, attempts)
  | fuel + 1, portBaud, baudrate2, attempts =>
      if baudrate2 < 115200 then
        if ok portBaud then (true, attempts ++ [portBaud])
        else
          connectLoop ok fuel (nextBaud baudrate2) (nextBaud baudrate2)
            (attempts ++ [portBaud])
      else (false, attempts)

/-- Baud negotiation as performed by `__init__` after opening the port
at the caller-given `baudrate`. -/
def connect (ok : Nat → Bool) (baudrate : Nat) : Bool × List Nat :=
  connectLoop ok 6 baudrate 4800 []

/-- Modelled from the spec: negotiation that walks an explicit
candidate list, succeeding at the first baud whose no-op answers
`ITLA_NOERROR` and failing only after attempting every candidate. -/
def negotiationSpec (ok : Nat → Bool) : List Nat → Bool × List Nat
  | [] => (false, [])
  | b :: rest =>
      if ok b then (true, [b])
      else
        let r := negotiationSpec ok rest
        (r.1, b :: r.2)

/-!
## The ticket race (`_communicate`, lines 289–296)

`_communicate` executes

    lock = threading.Lock()
    lock.acquire()
    rowticket = self.maxrowticket + 1
    self.maxrowticket = self.maxrowticket + 1
    self.queue.append(rowticket)
    lock.release()

with a **fresh** `threading.Lock()` object per call.  A lock that no
other thread can ever hold never blocks its owner and excludes nothing,
so under CPython's preemptive thread switching the three statements of
two concurrent callers may interleave arbitrarily.  `raceStep`/`raceRun`
model exactly these three statements for two threads; the program
counters `pc1`, `pc2` select the next statement of each thread.
-/

structure RaceState where
  maxrowticket : Nat
  queue : List Nat
  r1 : Nat
  pc1 : Nat
  r2 : Nat
  pc2 : Nat
deriving DecidableEq, Repr

/-- One statement of thread 1 (`t = true`) or thread 2 (`t = false`):
pc 0: `rowticket = self.maxrowticket + 1`;
pc 1: `self.maxrowticket = self.maxrowticket + 1`;
pc 2: `self.queue.append(rowticket)`. -/
def raceStep (t : Bool) (s : RaceState) : RaceState :=
  if t then
    match s.pc1 with
    | 0 => { s with r1 := s.maxrowticket + 1, pc1 := 1 }
    | 1 => { s with maxrowticket := s.maxrowticket + 1, pc1 := 2 }
    | 2 => { s with queue := s.queue ++ [s.r1], pc1 := 3 }
    | _ => s
  else
    match s.pc2 with
    | 0 => { s with r2 := s.maxrowticket + 1, pc2 := 1 }
    | 1 => { s with maxrowticket := s.maxrowticket + 1, pc2 := 2 }
    | 2 => { s with queue := s.queue ++ [s.r2], pc2 := 3 }
    | _ => s

/-- Run a schedule (list of thread choices) from a state. -/
def raceRun (sched : List Bool) (s : RaceState) : RaceState :=
  match sched with
  | [] => s
  | t :: rest => raceRun rest (raceStep t s)

/-- Two threads entering `_communicate` on a fresh driver instance. -/
def raceInit : RaceState :=
  { maxrowticket := 0, queue := [], r1 := 0, pc1 := 0, r2 := 0, pc2 := 0 }


/-!
## Helper lemmas: symbolic execution of one transaction
-/

/-- One `_communicate` transaction against a link whose responses are
valid frames with status bits in {0, 1, 3}: the ticket is appended and
popped again, the frame is sent, and the status of the response indexed
by the number of previously sent frames is returned. -/
theorem communicate_statusLink_ok (s : Nat → Nat)
    (hs : ∀ n, s n = 0 ∨ s n = 1 ∨ s n = 3)
    (register data rw : Nat) (st : LaserState) (hq : st.queue = []) :
    _communicate (statusLink s) register data rw st =
      (.intVal (s st.sent.length),
       { st with maxrowticket := st.maxrowticket + 1,
                 queue := [],
                 latestregister := if rw == 0 then register else st.latestregister,
                 sent := st.sent ++ [mkmsg rw register data],
                 _error := s st.sent.length }) := by
  rcases hs st.sent.length with h | h | h <;>
    cases hrw : rw == 0 <;>
      simp +decide [_communicate, statusLink, statusFrame, _recieve, hq, hrw, h,
        _checksum]

/-- Symbolic execution of `off()` against a status link. -/
theorem laserOff_ok (s : Nat → Nat)
    (hs : ∀ n, s n = 0 ∨ s n = 1 ∨ s n = 3)
    (st : LaserState) (hq : st.queue = []) :
    laserOff (statusLink s) st =
      (.intVal (s st.sent.length),
       { st with maxrowticket := st.maxrowticket + 1,
                 queue := [],
                 sent := st.sent ++ [mkmsg 1 REG_Resena 0],
                 _error := s st.sent.length,
                 powerState := 0 }) := by
  rw [laserOff, communicate_statusLink_ok s hs _ _ _ _ hq]
  simp

/-- Symbolic execution of the settle loop of `on()` against a status
link: `n + 1` no-op transactions, returning the status of the last. -/
theorem nopLoop_ok (s : Nat → Nat)
    (hs : ∀ n, s n = 0 ∨ s n = 1 ∨ s n = 3) :
    ∀ (n : Nat) (back : Nat) (st : LaserState), st.queue = [] →
    nopLoop (statusLink s) (n + 1) back st =
      (.intVal (s (st.sent.length + n)),
       { st with maxrowticket := st.maxrowticket + (n + 1),
                 queue := [],
                 latestregister := REG_Nop,
                 sent := st.sent ++ List.replicate (n + 1) (mkmsg 0 REG_Nop 0),
                 _error := s (st.sent.length + n) }) := by
  intro n
  induction n with
  | zero =>
      intro back st hq
      rw [nopLoop, communicate_statusLink_ok s hs _ _ _ _ hq]
      simp [nopLoop]
  | succ m ih =>
      intro back st hq
      rw [nopLoop, communicate_statusLink_ok s hs _ _ _ _ hq, pbind_intVal,
        ih _ _ rfl]
      have hidx : st.sent.length + 1 + m = st.sent.length + (m + 1) := by omega
      simp [List.replicate_succ, hidx]
      omega

/-- Symbolic execution of `on()` against a status link: one `REG_Resena`
write, ten no-op polls, `powerState := 1`, and the return value is the
status of the tenth no-op poll (transaction index `sent.length + 10`),
not that of the `REG_Resena` write. -/
theorem laserOn_ok (s : Nat → Nat)
    (hs : ∀ n, s n = 0 ∨ s n = 1 ∨ s n = 3)
    (st : LaserState) (hq : st.queue = []) :
    laserOn (statusLink s) st =
      (.intVal (s (st.sent.length + 10)),
       { st with maxrowticket := st.maxrowticket + 11,
                 queue := [],
                 latestregister := REG_Nop,
                 sent := st.sent ++
                   mkmsg 1 REG_Resena 8 :: List.replicate 10 (mkmsg 0 REG_Nop 0),
                 _error := s (st.sent.length + 10),
                 powerState := 1 }) := by
  rw [laserOn, communicate_statusLink_ok s hs _ _ _ _ hq, pbind_intVal]
  rw [show (10 : Nat) = 9 + 1 from rfl, nopLoop_ok s hs _ _ _ rfl, pbind_intVal]
  have hidx : st.sent.length + 1 + 9 = st.sent.length + 10 := by omega
  simp [hidx, List.replicate_succ]


/-!
## Claim theorems
-/

/-- Claim C1 (refuted by the code; evaluation of the failing input).
On the checksum-failure exit path the ticket appended at entry is NOT
removed from the ordering queue: a `setPower` command cycle whose
response fails checksum validation ends with `PyroError("ChecksumError")`
propagating out of `_communicate` before `self.queue.pop(0)` runs, so
ticket 1 stays at the head of the queue, and every subsequent command
spins forever on `while self.queue[0] != rowticket`. -/
theorem ticket_leaked_on_checksum_failure :
    (setPower badChecksumLink 10 initState).1 = .raised .checksumError ∧
    (setPower badChecksumLink 10 initState).2.queue = [1] ∧
    (setPower badChecksumLink 10 (setPower badChecksumLink 10 initState).2).1 =
      .hang := by
  decide

/-- Claim C2 (refuted by the code; evaluation of the failing input).
A receive in which fewer than 4 bytes arrive within the deadline is NOT
surfaced as a distinct timeout error: `_recieve` returns the placeholder
`(0xFF,0xFF,0xFF,0xFF)` (recording `ITLA_NRERROR` only in the private
`self._error` field) and `_communicate` silently coerces it to the 2-bit
hardware status code `0xFF & 0x03 = 3 = ITLA_CPERROR`, which the public
operation `setPower` returns as its ordinary status value. -/
theorem timeout_coerced_to_status_code :
    (setPower timeoutLink 10 initState).1 = .intVal ITLA_CPERROR ∧
    (setPower timeoutLink 10 initState).2._error = ITLA_NRERROR ∧
    (setPower timeoutLink 10 initState).2.queue = [] := by
  decide

/-- Claim C4 (refuted in its typed-error half; evaluation of the failing
input).  For the out-of-range wavelength 1600 (bounds [1515, 1570]),
`setWavelength` returns the plain Python string
`"wavelength not in range"` — not a typed `RangeError` — and the state
is completely unchanged: zero wire transactions (no frame transmitted)
and the queue/ticket fields untouched. -/
theorem setWavelength_out_of_range_returns_string :
    setWavelength timeoutLink 1600 initState =
      (.strVal ("wavelength not in range"), initState) := by
  with_unfolding_all rfl

/-- Claim C9 (refuted by the code; evaluation of the failing input).
A validly-checksummed response whose 2-bit status is 2 (extended
addressing) reaches `extmsg = self.AEA(datamsg)`, but class `PPCL55x`
defines no method `AEA`, so the public operation `on()` dies with an
untyped `AttributeError` instead of returning an unsupported-feature
error kind — and the ticket of that transaction is never released
(queue is left holding ticket 2), and `powerState` is never set. -/
theorem aea_response_raises_attribute_error :
    (laserOn aeaLink initState).1 = .raised .attributeErrorAEA ∧
    (laserOn aeaLink initState).2.queue = [2] ∧
    (laserOn aeaLink initState).2.powerState = 0 := by
  decide

/-- Claim C8 (refuted by the code; evaluation of the failing schedule).
Because `_communicate` creates a fresh `threading.Lock()` per call, the
ticket-acquisition statements of two concurrent callers can interleave:
under the schedule where both threads execute
`rowticket = self.maxrowticket + 1` before either executes the
increment, both obtain ticket 1, the queue becomes `[1, 1]`, and both
callers simultaneously pass the head-of-queue admission test
`self.queue[0] == rowticket` — so two commands are in flight at once
and their frame bytes may interleave on the wire. -/
theorem ticket_race_duplicate_tickets :
    (raceRun [true, false, true, false, true, false] raceInit).r1 = 1 ∧
    (raceRun [true, false, true, false, true, false] raceInit).r2 = 1 ∧
    (raceRun [true, false, true, false, true, false] raceInit).queue = [1, 1] ∧
    (raceRun [true, false, true, false, true, false] raceInit).queue.head? =
      some (raceRun [true, false, true, false, true, false] raceInit).r1 ∧
    (raceRun [true, false, true, false, true, false] raceInit).queue.head? =
      some (raceRun [true, false, true, false, true, false] raceInit).r2 := by
  decide

/-- Claim C5, counterexample.  With a link that never answers correctly
and the default initial baud 9600, the constructor fails — but no no-op
transaction was ever attempted at candidate baud 4800 (it is only the
initial value of the loop counter) nor at 115200 (the port is reopened
there and the `while baudrate2 < 115200` loop exits without testing
it), refuting "fails … if and only if a no-op transaction was attempted
at every candidate baud in the sequence". -/
theorem connect_candidate_claim_counterexample :
    (connect (fun _ => false) 9600).1 = false ∧
    (connect (fun _ => false) 9600).2 = [9600, 9600, 19200, 38400, 57600] ∧
    ¬ (∀ b ∈ [4800, 9600, 19200, 38400, 57600, 115200],
        b ∈ (connect (fun _ => false) 9600).2) := by
  decide

/-- Claim C5, amended.  Baud negotiation attempts a no-op transaction
first at the caller-supplied initial baud rate, then — advancing after
each failure — at 9600, 19200, 38400, 57600 in order; it succeeds at
the first attempt that returns `ITLA_NOERROR` and makes no further
attempts; if all five attempts fail it reopens the port at 115200 and
fails (raising `IOError`) without attempting a transaction there, so
4800 is attempted only if it is the caller-supplied initial baud, and
115200 is never attempted. -/
theorem connect_negotiation_amended (ok : Nat → Bool) (b0 : Nat) :
    connect ok b0 = negotiationSpec ok [b0, 9600, 19200, 38400, 57600] := by
  cases h0 : ok b0 <;> cases h1 : ok 9600 <;> cases h2 : ok 19200 <;>
    cases h3 : ok 38400 <;> cases h4 : ok 57600 <;>
      simp [connect, connectLoop, negotiationSpec, nextBaud, h0, h1, h2, h3, h4]

/-- Instantiation of `connect_negotiation_amended` on the spec's test
scenario: a link that only answers correctly at baud 38400, started at
the default initial baud 9600, attempts 9600 (the initial baud), 9600,
19200, then succeeds at 38400 and makes no further attempts. -/
theorem connect_negotiation_amended_witness :
    connect (fun b => b == 38400) 9600 = (true, [9600, 9600, 19200, 38400]) := by
  rw [connect_negotiation_amended]
  decide


/-!
## Checksum algebra (claim C6)
-/

/-- The checksum nibble is always below 16. -/
theorem checksum_lt_16 (a b c d : Nat) : _checksum a b c d < 16 := by
  show ((((a &&& 15) ^^^ b ^^^ c ^^^ d) &&& 240) >>> 4) ^^^
      (((a &&& 15) ^^^ b ^^^ c ^^^ d) &&& 15) < 16
  have h1 : ((a &&& 15) ^^^ b ^^^ c ^^^ d) &&& 240 ≤ 240 := Nat.and_le_right
  have h2 : ((a &&& 15) ^^^ b ^^^ c ^^^ d) &&& 15 ≤ 15 := Nat.and_le_right
  have h3 : (((a &&& 15) ^^^ b ^^^ c ^^^ d) &&& 240) >>> 4 < 2 ^ 4 := by
    rw [Nat.shiftRight_eq_div_pow]
    omega
  have h4 : ((a &&& 15) ^^^ b ^^^ c ^^^ d) &&& 15 < 2 ^ 4 := by omega
  have h5 := Nat.xor_lt_two_pow h3 h4
  omega

/-- Writing a nibble `c < 16` into the high nibble of a direction bit
`d < 2` by `d ||| c * 16` leaves the low nibble, the low 2 bits, and
the high nibble independently recoverable. -/
theorem lor_nibble_facts (d c : Nat) (hd : d < 2) (hc : c < 16) :
    (d ||| c * 16) &&& 15 = d ∧ (d ||| c * 16) >>> 4 = c ∧
    (d ||| c * 16) &&& 3 = d ∧ d &&& 15 = d := by
  have h : ∀ (x : Fin 2) (y : Fin 16),
      (x.val ||| y.val * 16) &&& 15 = x.val ∧
      (x.val ||| y.val * 16) >>> 4 = y.val ∧
      (x.val ||| y.val * 16) &&& 3 = x.val ∧ x.val &&& 15 = x.val := by decide
  exact h ⟨d, hd⟩ ⟨c, hc⟩

/-- The checksum reads only the low nibble of byte 0. -/
theorem checksum_depends_on_low_nibble (m0 n0 m1 m2 m3 : Nat)
    (h : m0 &&& 15 = n0 &&& 15) :
    _checksum m0 m1 m2 m3 = _checksum n0 m1 m2 m3 := by
  show ((((m0 &&& 15) ^^^ m1 ^^^ m2 ^^^ m3) &&& 240) >>> 4) ^^^
      (((m0 &&& 15) ^^^ m1 ^^^ m2 ^^^ m3) &&& 15) = _checksum n0 m1 m2 m3
  rw [h]
  rfl

/-- Claim C6 (confirmed).  Encoding a register command (direction bit
`rw < 2`, 8-bit register, 16-bit payload) into the 4-byte frame built
by `_communicate` — checksum `nibble4((b0 &&& 0x0F) ^^^ b1 ^^^ b2 ^^^ b3)`
written into the high nibble of byte 0 — yields a frame that passes
`_recieve`'s checksum validation `_checksum msg = msg[0] >>> 4`, whose
byte 1 is the original register, whose low 2 bits of byte 0 are the
original direction bit, and whose payload bytes recombine to the
original 16-bit payload via `recvmsg[2]*256 + recvmsg[3]`. -/
theorem frame_roundtrip (rw register data : Nat)
    (hrw : rw < 2) (hreg : register < 256) (hdata : data < 65536) :
    mkmsg rw register data =
      [rw ||| _checksum rw register (data / 256) (data - data / 256 * 256) * 16,
       register, data / 256, data - data / 256 * 256] ∧
    _checksum
        (rw ||| _checksum rw register (data / 256) (data - data / 256 * 256) * 16)
        register (data / 256) (data - data / 256 * 256) =
      (rw ||| _checksum rw register (data / 256) (data - data / 256 * 256) * 16)
        >>> 4 ∧
    (rw ||| _checksum rw register (data / 256) (data - data / 256 * 256) * 16)
        &&& 0x03 = rw ∧
    data / 256 * 256 + (data - data / 256 * 256) = data := by
  have hc : _checksum rw register (data / 256) (data - data / 256 * 256) < 16 :=
    checksum_lt_16 _ _ _ _
  obtain ⟨f1, f2, f3, f4⟩ := lor_nibble_facts rw
    (_checksum rw register (data / 256) (data - data / 256 * 256)) hrw hc
  refine ⟨rfl, ?_, f3, ?_⟩
  · rw [f2]
    exact checksum_depends_on_low_nibble _ _ _ _ _ (by rw [f1, f4])
  · have h := Nat.div_mul_le_self data 256
    omega

/-- Instantiation of `frame_roundtrip` at the concrete command
(direction 1, register `REG_Power = 0x31`, payload 1000). -/
theorem frame_roundtrip_witness :
    (1:Nat) < 2 ∧ (0x31:Nat) < 256 ∧ (1000:Nat) < 65536 ∧
    (mkmsg 1 0x31 1000 =
      [1 ||| _checksum 1 0x31 (1000 / 256) (1000 - 1000 / 256 * 256) * 16,
       0x31, 1000 / 256, 1000 - 1000 / 256 * 256] ∧
     _checksum
         (1 ||| _checksum 1 0x31 (1000 / 256) (1000 - 1000 / 256 * 256) * 16)
         0x31 (1000 / 256) (1000 - 1000 / 256 * 256) =
       (1 ||| _checksum 1 0x31 (1000 / 256) (1000 - 1000 / 256 * 256) * 16)
         >>> 4 ∧
     (1 ||| _checksum 1 0x31 (1000 / 256) (1000 - 1000 / 256 * 256) * 16)
         &&& 0x03 = 1 ∧
     1000 / 256 * 256 + (1000 - 1000 / 256 * 256) = 1000) :=
  ⟨by decide, by decide, by decide,
   frame_roundtrip 1 0x31 1000 (by decide) (by decide) (by decide)⟩

/-- Claim C7 (confirmed).  For every positive wavelength, the two
frequency register values computed by `setWavelength` are the
decomposition of the exact quotient `C_SPEED / wl`:
`freq_t = ⌊freq/1000⌋` and `freq_g = ⌊freq*10⌋ - freq_t*10000`
(Python's `int()` truncation agrees with the floor on these positive
values); in particular at `wl = 1550` the pair is `(193, 4144)`. -/
theorem wavelength_to_frequency_registers :
    (∀ wl : ℚ, 0 < wl →
      _wl_freq wl = 299792458 / wl ∧
      pyInt (_wl_freq wl / 1000) = ⌊(299792458:ℚ) / wl / 1000⌋ ∧
      pyInt (_wl_freq wl * 10) - pyInt (_wl_freq wl / 1000) * 10000 =
        ⌊(299792458:ℚ) / wl * 10⌋ - ⌊(299792458:ℚ) / wl / 1000⌋ * 10000) ∧
    pyInt (_wl_freq 1550 / 1000) = 193 ∧
    pyInt (_wl_freq 1550 * 10) - pyInt (_wl_freq 1550 / 1000) * 10000 = 4144 := by
  constructor
  · intro wl hwl
    have hC : _wl_freq wl = 299792458 / wl := rfl
    have h1 : (0:ℚ) ≤ 299792458 / wl / 1000 := by positivity
    have h2 : (0:ℚ) ≤ 299792458 / wl * 10 := by positivity
    refine ⟨hC, ?_, ?_⟩
    · rw [hC]
      simp only [pyInt]
      rw [if_pos h1]
    · rw [hC]
      simp only [pyInt]
      rw [if_pos h1, if_pos h2]
  · constructor
    · with_unfolding_all rfl
    · with_unfolding_all rfl

/-- Instantiation of (the universally quantified part of)
`wavelength_to_frequency_registers` at wavelength 1550 nm. -/
theorem wavelength_to_frequency_registers_witness :
    (0:ℚ) < 1550 ∧
    (_wl_freq 1550 = 299792458 / 1550 ∧
     pyInt (_wl_freq 1550 / 1000) = ⌊(299792458:ℚ) / 1550 / 1000⌋ ∧
     pyInt (_wl_freq 1550 * 10) - pyInt (_wl_freq 1550 / 1000) * 10000 =
       ⌊(299792458:ℚ) / 1550 * 10⌋ - ⌊(299792458:ℚ) / 1550 / 1000⌋ * 10000) :=
  ⟨by norm_num, wavelength_to_frequency_registers.1 1550 (by norm_num)⟩

/-- Claim C10 (confirmed).  Whatever statuses the instrument reports
(any mix of 0, 1, 3 — i.e. even if every wire transaction reported an
error), `on()` sets `powerState := 1` unconditionally, and the status
code it returns is that of the last of the 10 no-op settle polls
(transaction index `sent.length + 10`), not that of the `REG_Resena`
enable write (index `sent.length`), whose status is discarded. -/
theorem laserOn_unconditional_power_and_last_poll_status (s : Nat → Nat)
    (hs : ∀ n, s n = 0 ∨ s n = 1 ∨ s n = 3)
    (st : LaserState) (hq : st.queue = []) :
    (laserOn (statusLink s) st).1 = .intVal (s (st.sent.length + 10)) ∧
    (laserOn (statusLink s) st).2.powerState = 1 := by
  rw [laserOn_ok s hs st hq]
  exact ⟨rfl, rfl⟩

/-- Instantiation of `laserOn_unconditional_power_and_last_poll_status`:
every transaction of `on()` reports error status 3 except the tenth
no-op poll, which reports 0; `on()` returns 0 (the Resena error is
discarded) and the power state is set to 1. -/
theorem laserOn_unconditional_power_witness :
    (laserOn (statusLink fun n => if n == 10 then 0 else 3) initState).1 =
      .intVal 0 ∧
    (laserOn (statusLink fun n => if n == 10 then 0 else 3) initState).2.powerState
      = 1 := by
  have h := laserOn_unconditional_power_and_last_poll_status
    (fun n => if n == 10 then 0 else 3)
    (fun n => by cases hn : (n == 10) <;> simp [hn]) initState rfl
  simpa [initState] using h

/-- Claim C3 (confirmed).  For every in-range wavelength requested while
the power state is on, against a link whose responses are valid frames
with statuses in {0, 1, 3}, the frames issued on the link are exactly:
`REG_Resena` data 0 (the `off()`), then `REG_Fcf1`, then `REG_Fcf2`
(the latter only when the `REG_Fcf1` write returned status 0), then
`REG_Resena` data 8 followed by 10 `REG_Nop` polls (the restoring
`on()`, performed regardless of the Fcf statuses); the returned value
is the status of the last Fcf write attempted, and the power state ends
on. -/
theorem setWavelength_power_cycle_sequence (s : Nat → Nat)
    (hs : ∀ n, s n = 0 ∨ s n = 1 ∨ s n = 3)
    (st : LaserState) (hq : st.queue = [])
    (hpw : st.powerState ≠ 0) (wl : ℚ)
    (h1 : ¬ wl < st.minWavelength) (h2 : ¬ st.maxWavelength < wl) :
    (setWavelength (statusLink s) wl st).2.sent =
      st.sent ++
        (if s (st.sent.length + 1) = 0 then
          [mkmsg 1 REG_Resena 0,
           mkmsg 1 REG_Fcf1 (pyInt (_wl_freq wl / 1000)).toNat,
           mkmsg 1 REG_Fcf2
             (pyInt (_wl_freq wl * 10) -
               pyInt (_wl_freq wl / 1000) * 10000).toNat,
           mkmsg 1 REG_Resena 8] ++ List.replicate 10 (mkmsg 0 REG_Nop 0)
         else
          [mkmsg 1 REG_Resena 0,
           mkmsg 1 REG_Fcf1 (pyInt (_wl_freq wl / 1000)).toNat,
           mkmsg 1 REG_Resena 8] ++ List.replicate 10 (mkmsg 0 REG_Nop 0)) ∧
    (setWavelength (statusLink s) wl st).1 =
      .intVal (if s (st.sent.length + 1) = 0 then s (st.sent.length + 2)
               else s (st.sent.length + 1)) ∧
    (setWavelength (statusLink s) wl st).2.powerState = 1 := by
  rw [setWavelength, if_neg (not_or.mpr ⟨h1, h2⟩), if_pos hpw]
  rw [laserOff_ok s hs _ hq, pbind_intVal]
  rw [communicate_statusLink_ok s hs _ _ _ _ rfl, pbind_intVal]
  simp only [List.length_append, List.length_cons, List.length_nil, Nat.zero_add,
    Nat.add_zero]
  rcases hs (st.sent.length + 1) with h | h | h <;> rw [h] <;>
    simp only [ITLA_NOERROR]
  · rw [if_pos (show ((0:Nat) == 0) = true from rfl)]
    rw [communicate_statusLink_ok s hs _ _ _ _ rfl, pbind_intVal]
    rw [laserOn_ok s hs _ rfl, pbind_intVal]
    simp [List.replicate_succ]
  · rw [if_neg (show ¬ ((1:Nat) == 0) = true by decide)]
    rw [laserOn_ok s hs _ rfl, pbind_intVal]
    simp [List.replicate_succ]
  · rw [if_neg (show ¬ ((3:Nat) == 0) = true by decide)]
    rw [laserOn_ok s hs _ rfl, pbind_intVal]
    simp [List.replicate_succ]

/-- Instantiation of `setWavelength_power_cycle_sequence`: wavelength
1550 nm requested on a powered-on fresh driver against an all-success
link; the wire trace is Resena(0), Fcf1(193), Fcf2(4144), Resena(8),
10 × Nop, the returned status is 0, and the power ends on. -/
theorem setWavelength_power_cycle_sequence_witness :
    (setWavelength (statusLink fun _ => 0) 1550
        { initState with powerState := 1 }).2.sent =
      [mkmsg 1 REG_Resena 0, mkmsg 1 REG_Fcf1 193, mkmsg 1 REG_Fcf2 4144,
       mkmsg 1 REG_Resena 8] ++ List.replicate 10 (mkmsg 0 REG_Nop 0) ∧
    (setWavelength (statusLink fun _ => 0) 1550
        { initState with powerState := 1 }).1 = .intVal 0 ∧
    (setWavelength (statusLink fun _ => 0) 1550
        { initState with powerState := 1 }).2.powerState = 1 := by
  have h := setWavelength_power_cycle_sequence (fun _ => 0)
    (fun n => Or.inl rfl) { initState with powerState := 1 } rfl
    (by decide) 1550 (by decide) (by decide)
  have h193 : (pyInt (_wl_freq 1550 / 1000)).toNat = 193 := by
    with_unfolding_all rfl
  have h4144 :
      (pyInt (_wl_freq 1550 * 10) - pyInt (_wl_freq 1550 / 1000) * 10000).toNat
        = 4144 := by
    with_unfolding_all rfl
  simpa [initState, h193, h4144] using h

end PPCL550
